import Mathlib

/-!
Verification of the `alabhelpers` utility library against its specification.

The Python sources (`boto3helpers.py`, `rdshelpers.py`, `lambdahelpers.py`)
are shallowly embedded below:
* Python scalar values that flow through the RDS helpers become `PyVal`;
* Python exceptions become the `PyError` type and fallible code returns `Except`;
* the boto3 / routes / json collaborators are modelled by their documented
  call contracts (the data they return), and the side effect of issuing a
  data-API call is modelled by returning a record of the call that was made;
* logging calls are pure no-ops except where they evaluate an expression that
  can raise (`len(params)` in `execute_sql_batch`).
-/

/-- A decimal digit rendered as a character, as Python renders digits. -/
def digitChar (n : Nat) : Char := Char.ofNat (48 + n)

/-- Decimal digit characters of a natural number, most significant first
(Python's rendering of a nonnegative integer).  The fuel argument `n + 1`
always suffices because a number has at most `n + 1` digits. -/
def natCharsAux : Nat → Nat → List Char
  | 0, _ => []
  | fuel + 1, n =>
    if n < 10 then [digitChar n]
    else natCharsAux fuel (n / 10) ++ [digitChar (n % 10)]

def natChars (n : Nat) : List Char := natCharsAux (n + 1) n

/-- Python scalar values handled by the rds helpers. `datetime` models a
`datetime.datetime` (only the date part matters to the code under study). -/
inductive PyVal where
  | none
  | str (s : String)
  | bool (b : Bool)
  | int (n : Int)
  | datetime (y m d : Nat)
  deriving DecidableEq, Repr

/-- Python truthiness (`bool(v)`) for the values of `PyVal`. -/
def PyVal.truthy : PyVal → Bool
  | .none => false
  | .str s => s ≠ ""
  | .bool b => b
  | .int n => n ≠ 0
  | .datetime _ _ _ => true

/-- The Python exceptions the embedded code can raise. -/
inductive PyError where
  | typeError (msg : String)
  | valueError (msg : String)
  | indexError (msg : String)
  | keyError (key : String)
  deriving DecidableEq, Repr

/-- Python `a or b` restricted to operands that are `None` or a string
(the shape of `arg or os.environ.get(NAME)` in `_verify_params`):
the right operand is taken exactly when the left is falsy, i.e. `None`
or the empty string. -/
def pyOr (a b : Option String) : Option String :=
  match a with
  | some s => if s = "" then b else some s
  | Option.none => b

/-- The three environment variables read by `_verify_params`
(`os.environ.get` yields `None` when a variable is unset). -/
structure RdsEnv where
  AURORA_SECRET_ARN : Option String
  AURORA_CLUSTER_ARN : Option String
  DATABASE : Option String
  deriving DecidableEq, Repr

/-- An rds-data client: either the one the caller passed in, or the fresh one
built by `boto3.client ("rds-data")` when none was passed.  A client object is
always truthy, so `rds or boto3.client(...)` keeps a provided client. -/
inductive RdsClient where
  | provided (id : Nat)
  | fresh
  deriving DecidableEq, Repr

/-- The value a tagged wire parameter carries: one type-tagged variant, or the
dedicated null marker `{"isNull": True}`. -/
inductive WireValue where
  | tagged (tag : String) (v : PyVal)
  | isNull
  deriving DecidableEq, Repr

/-- A parameter dictionary as produced by `make_param`:
`{"name": ..., "value": ...}` plus an optional `"typeHint"` entry. -/
structure SqlParam where
  name : String
  value : WireValue
  typeHint : Option String
  deriving DecidableEq, Repr

/-- `_verify_params` from `rdshelpers.py`: resolve each identifier from the
explicit argument or its environment variable, then check the three resolved
identifiers for `None` in order (secret, cluster, database), raising
`ValueError` at the first missing one. -/
def verify_params (secret_arn cluster_arn database : Option String)
    (rds : Option RdsClient) (env : RdsEnv) :
    Except PyError (String × String × String × RdsClient) :=
  let s := pyOr secret_arn env.AURORA_SECRET_ARN
  let c := pyOr cluster_arn env.AURORA_CLUSTER_ARN
  let d := pyOr database env.DATABASE
  let r := rds.getD RdsClient.fresh
  match s with
  | Option.none => .error (.valueError "'secret_arn' not set and not defined in AURORA_SECRET_ARN.")
  | some s' =>
    match c with
    | Option.none => .error (.valueError "'cluster_arn' not set and not defined in AURORA_CLUSTER_ARN.")
    | some c' =>
      match d with
      | Option.none => .error (.valueError "'database' not set and not defined in DATABASE.")
      | some d' => .ok (s', c', d', r)

/-- Python `params or []` for an optional list argument. -/
def pyOrEmptyList {α : Type} (params : Option (List α)) : List α :=
  match params with
  | some [] => []
  | some l => l
  | Option.none => []

/-- The single `rds.execute_statement(...)` call issued by `execute_sql`,
recording the arguments it was given.  The boto3 response is opaque to this
library, so the call record stands for the returned response as well. -/
structure StatementCall where
  client : RdsClient
  resourceArn : String
  secretArn : String
  database : String
  parameters : List SqlParam
  sql : String
  deriving DecidableEq, Repr

/-- `execute_sql` from `rdshelpers.py`: verify the identifiers, then issue
`execute_statement` with the resolved identifiers and `params or []`. -/
def execute_sql (sql : String) (params : Option (List SqlParam))
    (rds : Option RdsClient) (cluster_arn secret_arn database : Option String)
    (env : RdsEnv) : Except PyError StatementCall := do
  let (s, c, d, r) ← verify_params secret_arn cluster_arn database rds env
  .ok { client := r, resourceArn := c, secretArn := s, database := d,
        parameters := pyOrEmptyList params, sql := sql }

/-- Zero-padding to a fixed width, as `%04d` / `%02d` pad. -/
def padZeros (w : Nat) (cs : List Char) : List Char :=
  List.replicate (w - cs.length) '0' ++ cs

/-- `value.strftime("%Y-%m-%d")` for a `datetime.datetime` value. -/
def strftimeDate (y m d : Nat) : String :=
  ⟨padZeros 4 (natChars y) ++ '-' :: padZeros 2 (natChars m) ++ '-' :: padZeros 2 (natChars d)⟩

/-- `maptype` nested in `make_param`: pick the wire variant tag from the
declared field type. -/
def maptype (t : String) : String :=
  if t = "string" ∨ t = "date" then "stringValue"
  else if t = "bool" then "booleanValue"
  else "longValue"

/-- `map_string` nested in `make_param`.  Returns the mapped value together
with the `isnull` flag (`value is None`).  For `date` with a truthy value the
code formats a `datetime` or slices a string to its first 10 characters; a
truthy value of any other type would raise in CPython and never occurs in the
library's calls, so it is modelled as passed through. -/
def map_string (value : PyVal) (t : String) : PyVal × Bool :=
  let isnull := decide (value = PyVal.none)
  if t = "date" then
    if !value.truthy then (value, isnull)
    else
      match value with
      | .datetime y m d => (.str (strftimeDate y m d), isnull)
      | .str s => (.str (s.take 10), isnull)
      | v => (v, isnull)
  else if t = "int" ∧ value = .str "" then (.int 0, isnull)
  else if t = "bool" then (.bool value.truthy, isnull)
  else (value, isnull)

/-- `make_param` from `rdshelpers.py`: build the `{name, value, typeHint?}`
parameter dictionary, overwriting the value with the null marker when the
original value is `None` or the mapping flagged it null. -/
def make_param (fieldname : String) (value : PyVal) (fieldtype : String) : SqlParam :=
  let mv := map_string value fieldtype
  let parameter : SqlParam :=
    { name := fieldname
      value := WireValue.tagged (maptype fieldtype) mv.1
      typeHint := if fieldtype = "date" then some "DATE" else Option.none }
  if value = PyVal.none ∨ mv.2 = true then
    { parameter with value := WireValue.isNull }
  else parameter

/-- A tagged scalar of a query response: a Python dict in insertion order,
e.g. `{"stringValue": "a"}` or `{"isNull": True}`. -/
abbrev TaggedScalar := List (String × PyVal)

/-- `extract_value` nested in `get_data`: `None` when the `"isNull"` key is
present, otherwise `list(v.values())[0]`, which raises `IndexError` on an
empty dict. -/
def extract_value (v : TaggedScalar) : Except PyError PyVal :=
  if v.any (fun p => decide (p.1 = "isNull")) then .ok .none
  else
    match v with
    | [] => .error (.indexError "list index out of range")
    | p :: _ => .ok p.2

/-- Assignment `d[k] = v` on a Python dict modelled as an insertion-ordered
association list: overwrite in place when the key exists, append otherwise. -/
def pyDictInsert (d : List (String × PyVal)) (k : String) (v : PyVal) :
    List (String × PyVal) :=
  if d.any (fun p => decide (p.1 = k)) then
    d.map (fun p => if p.1 = k then (k, v) else p)
  else d ++ [(k, v)]

/-- The dict comprehension in `get_data`:
`{columns[i]: extract_value(v) for i, v in enumerate(row)}`.
`columns[i]` raises `IndexError` when the row is longer than the column list;
the key is evaluated before the value (CPython ≥ 3.8 comprehension order). -/
def build_row (columns : List String) : Nat → List (String × PyVal) →
    List TaggedScalar → Except PyError (List (String × PyVal))
  | _, acc, [] => .ok acc
  | i, acc, v :: vs =>
    match columns[i]? with
    | Option.none => .error (.indexError "list index out of range")
    | some c =>
      match extract_value v with
      | .error e => .error e
      | .ok x => build_row columns (i + 1) (pyDictInsert acc c x) vs

/-- The query response handed to `get_data` (`response.get("records", [])`
defaults a missing key to the empty record list, so `records` is the list the
loop iterates over). -/
structure QueryResponse where
  records : List (List TaggedScalar)
  deriving DecidableEq, Repr

def get_data_rows (columns : List String) :
    List (List TaggedScalar) → Except PyError (List (List (String × PyVal)))
  | [] => .ok []
  | row :: rows => do
    let r ← build_row columns 0 [] row
    let rest ← get_data_rows columns rows
    .ok (r :: rest)

/-- `get_data` from `rdshelpers.py`: decode each record row into a dict keyed
by the caller-supplied column names.  Any exception raised while decoding a
row aborts the whole call (modelled by the `Except` monad). -/
def get_data (query_response : QueryResponse) (columns : List String) :
    Except PyError (List (List (String × PyVal))) :=
  get_data_rows columns query_response.records

/-- Specification-side total decoding of one tagged scalar, used to state
what `get_data` produces: the null marker decodes to `None`, anything else to
its first (single) wrapped value. -/
def decodeScalar (v : TaggedScalar) : PyVal :=
  if v.any (fun p => decide (p.1 = "isNull")) then .none
  else (v.headD ("", .none)).2

/-- One response of the paginated DynamoDB query: the page of items and the
optional continuation cursor (`LastEvaluatedKey`). -/
structure DDBResponse (α κ : Type) where
  Items : List α
  LastEvaluatedKey : Option κ
  deriving DecidableEq, Repr

/-- The `while lastkey is not None` loop of `query_table` in
`boto3helpers.py`, over the remaining responses the mocked store will
produce: while the previous response carried a cursor, consume the next
response and hand its page of items to the processor. -/
def query_table_loop {α κ : Type} : Option κ → List (DDBResponse α κ) →
    List (List α)
  | Option.none, _ => []
  | some _, [] => []
  | some _, r :: rs => r.Items :: query_table_loop r.LastEvaluatedKey rs

/-- `query_table` from `boto3helpers.py`, run against a mocked store that
answers successive queries with the given list of responses.  The result is
the sequence of argument lists passed to `processor`, in call order (each call
happens synchronously before `query_table` returns).  A store that answers no
query at all (`[]`) is outside the model (`Option.none`). -/
def query_table {α κ : Type} : List (DDBResponse α κ) → Option (List (List α))
  | [] => Option.none
  | r :: rs => some (r.Items :: query_table_loop r.LastEvaluatedKey rs)

/-- A store producing exactly the pages of one pagination run: at least one
response, every response but the last carries a continuation cursor, and the
last carries none. -/
def wellFormedStore {α κ : Type} : List (DDBResponse α κ) → Bool
  | [] => false
  | r :: rs =>
    match rs with
    | [] => r.LastEvaluatedKey.isNone
    | _ :: _ => r.LastEvaluatedKey.isSome && wellFormedStore rs

/-- The single `rds.batch_execute_statement(...)` call issued by
`execute_sql_batch`. -/
structure BatchStatementCall where
  client : RdsClient
  resourceArn : String
  secretArn : String
  database : String
  sql : String
  parameterSets : List (List SqlParam)
  deriving DecidableEq, Repr

/-- `execute_sql_batch` from `rdshelpers.py`.  Its first statement is
`logger.debug(f"Executing {len(params)}: {sql}")`: when `params` is `None`,
`len(params)` raises `TypeError` before anything else happens.  Then the
identifiers are verified, and only then does `if not params:` short-circuit
an empty list to a bare `return` (modelled as `.ok Option.none`: no call made,
`None` returned). -/
def execute_sql_batch (sql : String) (params : Option (List (List SqlParam)))
    (rds : Option RdsClient) (cluster_arn secret_arn database : Option String)
    (env : RdsEnv) : Except PyError (Option BatchStatementCall) :=
  match params with
  | Option.none => .error (.typeError "object of type 'NoneType' has no len()")
  | some ps => do
    let (s, c, d, r) ← verify_params secret_arn cluster_arn database rds env
    if ps = [] then
      .ok Option.none
    else
      .ok (some { client := r, resourceArn := c, secretArn := s, database := d,
                  sql := sql, parameterSets := ps })

/-- A finite `decimal.Decimal` value: sign, coefficient digits (most
significant first, at least one digit, each < 10), exponent.
`Decimal("10")` is `⟨false, [1, 0], 0⟩`; `Decimal("10.5")` is
`⟨false, [1, 0, 5], -1⟩`. -/
structure PyDecimal where
  neg : Bool
  digits : List Nat
  exp : Int
  deriving DecidableEq, Repr

/-- The coefficient of a decimal as a natural number. -/
def decCoeff (d : PyDecimal) : Nat :=
  d.digits.foldl (fun a k => 10 * a + k) 0

/-- `str(obj)` for a finite `decimal.Decimal`, following CPython's
to-scientific-string algorithm (`_pydecimal.Decimal.__str__`): plain notation
when `exp <= 0` and the adjusted position of the point stays above `-6`,
scientific notation otherwise. -/
def pyDecStr (d : PyDecimal) : List Char :=
  let sign : List Char := if d.neg then ['-'] else []
  let digitsC : List Char := d.digits.map digitChar
  let leftdigits : Int := d.exp + d.digits.length
  let dotplace : Int :=
    if d.exp ≤ 0 ∧ leftdigits > -6 then leftdigits else 1
  let intpart : List Char :=
    if dotplace ≤ 0 then ['0']
    else if dotplace ≥ (digitsC.length : Int) then
      digitsC ++ List.replicate (dotplace - digitsC.length).toNat '0'
    else digitsC.take dotplace.toNat
  let fracpart : List Char :=
    if dotplace ≤ 0 then
      '.' :: (List.replicate (-dotplace).toNat '0' ++ digitsC)
    else if dotplace ≥ (digitsC.length : Int) then []
    else '.' :: digitsC.drop dotplace.toNat
  let exppart : List Char :=
    if leftdigits = dotplace then []
    else
      'E' :: (if leftdigits - dotplace ≥ 0 then '+' :: natChars (leftdigits - dotplace).toNat
              else '-' :: natChars (dotplace - leftdigits).toNat)
  sign ++ intpart ++ fracpart ++ exppart

/-- `int(obj)` for a decimal: truncation toward zero. -/
def pyIntOfDec (d : PyDecimal) : Int :=
  let mag : Nat :=
    if d.exp ≥ 0 then decCoeff d * 10 ^ d.exp.toNat
    else decCoeff d / 10 ^ (-d.exp).toNat
  if d.neg then -(mag : Int) else (mag : Int)

/-- `float(obj)` for a decimal, modelled by the exact rational value of the
decimal (CPython rounds to the nearest binary double; the values appearing in
the claims, such as 10.5, are exactly representable, where the two agree). -/
def pyFloatOfDec (d : PyDecimal) : ℚ :=
  (if d.neg then -1 else 1) * (decCoeff d : ℚ) * (10 : ℚ) ^ d.exp

/-- The JSON number emitted by the encoder for a decimal: a plain integer or
a floating-point number. -/
inductive EncodedNum where
  | intVal (n : Int)
  | floatVal (q : ℚ)
  deriving DecidableEq, Repr

/-- `DecimalEncoder.default` from `lambdahelpers.py`, on a `Decimal` input:
`s = str(obj)`, then `float(obj)` when `"." in s`, else `int(obj)`.
(On any non-`Decimal` input the method defers to the base class, which
raises `TypeError`; only the `Decimal` branch is modelled.) -/
def DecimalEncoder.default (d : PyDecimal) : EncodedNum :=
  if (pyDecStr d).any (fun c => decide (c = '.')) then .floatVal (pyFloatOfDec d)
  else .intVal (pyIntOfDec d)

/-- Render a code point as the four lowercase hex digits of `\uXXXX`. -/
def hex4 (n : Nat) : List Char :=
  let hexDigit : Nat → Char := fun k =>
    if k < 10 then digitChar k else Char.ofNat (97 + (k - 10))
  [hexDigit (n / 4096 % 16), hexDigit (n / 256 % 16), hexDigit (n / 16 % 16),
   hexDigit (n % 16)]

/-- Escaping of one character by `json.dumps` with the default
`ensure_ascii=True` (CPython `json.encoder`, pattern `([\\"]|[^\ -~])`):
backslash, double quote, the named control escapes, `\uXXXX` for other
characters outside `0x20..0x7E`, and a surrogate pair above `0xFFFF`. -/
def jsonEscapeChar (c : Char) : List Char :=
  if c = '\\' then ['\\', '\\']
  else if c = '"' then ['\\', '"']
  else if c.toNat = 8 then ['\\', 'b']
  else if c.toNat = 9 then ['\\', 't']
  else if c.toNat = 10 then ['\\', 'n']
  else if c.toNat = 12 then ['\\', 'f']
  else if c.toNat = 13 then ['\\', 'r']
  else if c.toNat < 32 ∨ c.toNat > 126 then
    if c.toNat < 65536 then '\\' :: 'u' :: hex4 c.toNat
    else
      let v := c.toNat - 65536
      '\\' :: 'u' :: hex4 (55296 + v / 1024) ++ '\\' :: 'u' :: hex4 (56320 + v % 1024)
  else [c]

/-- `json.dumps(s)` for a string `s`: a double-quoted, escaped JSON string
literal. -/
def jsonDumpsStr (s : String) : String :=
  ⟨'"' :: (s.data.flatMap jsonEscapeChar ++ ['"'])⟩

/-- A character `json.dumps` leaves unescaped: printable ASCII other than the
quote and the backslash. -/
def jsonPlainChar (c : Char) : Bool :=
  32 ≤ c.toNat && c.toNat ≤ 126 && c ≠ '"' && c ≠ '\\'

/-- The response envelope built by the lambda helpers:
`{statusCode, headers, body}`. -/
structure Envelope where
  statusCode : Int
  headers : List (String × String)
  body : String
  deriving DecidableEq, Repr

/-- `DEFAULT_HEADERS` from `lambdahelpers.py`. -/
def DEFAULT_HEADERS : List (String × String) :=
  [("Access-Control-Allow-Headers", "Content-Type"),
   ("Access-Control-Allow-Origin", "*"),
   ("Access-Control-Allow-Methods", "OPTIONS,POST,GET")]

/-- `response` from `lambdahelpers.py`, at a string `content` (the shape
`route_and_execute` uses): fixed headers and the JSON-serialized body. -/
def lambdaResponse (content : String) (status : Int) : Envelope :=
  { statusCode := status
    headers := ("Content-Type", "application/json") :: DEFAULT_HEADERS
    body := jsonDumpsStr content }

/-- Decode one `%XX` escape: the byte value, when both characters are hex
digits. -/
def hexPair (a b : Char) : Option Nat :=
  let hv : Char → Option Nat := fun c =>
    if 48 ≤ c.toNat ∧ c.toNat ≤ 57 then some (c.toNat - 48)
    else if 97 ≤ c.toNat ∧ c.toNat ≤ 102 then some (c.toNat - 87)
    else if 65 ≤ c.toNat ∧ c.toNat ≤ 70 then some (c.toNat - 55)
    else Option.none
  match hv a, hv b with
  | some x, some y => some (16 * x + y)
  | _, _ => Option.none

/-- `urllib.parse.unquote`: replace each valid `%XX` escape by the character
of the byte it denotes and leave malformed escapes as literal text.  (CPython
decodes runs of escaped bytes as UTF-8; for escapes of ASCII bytes — the only
ones the claims exercise — that is exactly one character per escape, as
modelled here.) -/
def pyUnquoteChars : List Char → List Char
  | [] => []
  | '%' :: a :: b :: rest =>
    match hexPair a b with
    | some n => Char.ofNat n :: pyUnquoteChars rest
    | Option.none => '%' :: pyUnquoteChars (a :: b :: rest)
  | c :: rest => c :: pyUnquoteChars rest

def pyUnquote (s : String) : String := ⟨pyUnquoteChars s.data⟩

/-- Parsed JSON values (what `json.loads` yields). -/
inductive PyJson where
  | null
  | bool (b : Bool)
  | int (n : Int)
  | str (s : String)
  | arr (xs : List PyJson)
  | obj (kvs : List (String × PyJson))

/-- The `body` entry of a trigger event: absent, a JSON string, or an already
structured dict. -/
inductive EventBody where
  | str (s : String)
  | dict (kvs : List (String × PyJson))

/-- A trigger event: `httpMethod` read with `event.get("httpMethod", "")`,
`path` read with `event["path"]`, `body` read with `event.get("body")`. -/
structure LambdaEvent where
  httpMethod : Option String
  path : String
  body : Option EventBody

/-- A value in the match dict returned by `routes.match`: a path-parameter
string, the handler function bound to `"controller"` (identified by an
index), or a structured value. -/
inductive RVal where
  | str (s : String)
  | handlerRef (h : Nat)
  | pyjson (j : PyJson)

/-- What `route_and_execute` does: either it invokes the matched handler —
recorded as the handler's identity plus the keyword arguments of the call —
or it returns the 400 envelope itself. -/
inductive RouteOutcome where
  | handlerCall (h : Nat) (kwargs : List (String × RVal))
  | resp (e : Envelope)

/-- `event.get("body") or "{}"`: a missing, empty-string or empty-dict body
is replaced by the literal string `"\x7b\x7d"` before JSON decoding. -/
def bodyOrEmpty : Option EventBody → EventBody
  | Option.none => .str "{}"
  | some (.str "") => .str "{}"
  | some (.dict []) => .str "{}"
  | some b => b

/-- `if type(body) is not dict: body = json.loads(body)`: a dict body is kept
as is, a string body is decoded by `json.loads` (which may raise). -/
def decodeBody (loads : String → Except PyError PyJson) :
    EventBody → Except PyError PyJson
  | .dict kvs => .ok (PyJson.obj kvs)
  | .str s => loads s

/-- `route_and_execute` from `lambdahelpers.py`.  The `routes` collaborator is
modelled by its `match` method (decoded path and request method to optional
match dict), and the external `json.loads` by the `loads` argument.  On a
match: take `event.get("body") or "\x7b\x7d"`, JSON-decode it unless it is
already a dict, look up `match["controller"]` and call it with `body=...`
plus every entry of the match dict as keyword arguments (a match dict that
itself contains a `"body"` key would make the call a `TypeError`, and a
non-callable `"controller"` value also raises).  On no match: return the 400
envelope built from the decoded path. -/
def route_and_execute (event : LambdaEvent)
    (routesMatch : String → String → Option (List (String × RVal)))
    (loads : String → Except PyError PyJson) : Except PyError RouteOutcome :=
  let verb := event.httpMethod.getD ""
  let decodedPath := pyUnquote event.path
  match routesMatch decodedPath verb with
  | some m => do
    let bodyVal : PyJson ← decodeBody loads (bodyOrEmpty event.body)
    let controller ←
      match m.find? (fun p => decide (p.1 = "controller")) with
      | some p => Except.ok p.2
      | Option.none => Except.error (.keyError "controller")
    let h ←
      match controller with
      | .handlerRef h => Except.ok h
      | _ => Except.error (.typeError "object is not callable")
    if m.any (fun p => decide (p.1 = "body")) then
      .error (.typeError "got multiple values for keyword argument 'body'")
    else
      .ok (.handlerCall h (("body", RVal.pyjson bodyVal) :: m))
  | Option.none =>
    .ok (.resp (lambdaResponse (pyUnquote event.path ++ " is invalid") 400))

lemma query_table_loop_nil {α κ : Type} (k : Option κ) :
    query_table_loop (α := α) k [] = [] := by
  cases k <;> rfl

lemma query_table_loop_wf {α κ : Type} (rs : List (DDBResponse α κ)) :
    ∀ (x : κ), wellFormedStore rs = true →
      query_table_loop (some x) rs = rs.map DDBResponse.Items := by
  induction rs with
  | nil => intro x h; simp [wellFormedStore] at h
  | cons r rs ih =>
    intro x h
    cases rs with
    | nil => simp [query_table_loop, query_table_loop_nil]
    | cons r' rs' =>
      simp only [wellFormedStore, Bool.and_eq_true] at h
      obtain ⟨h1, h2⟩ := h
      obtain ⟨y, hy⟩ := Option.isSome_iff_exists.mp h1
      simp only [query_table_loop, List.map_cons, hy]
      exact congrArg _ (ih y h2)

/-- C1: run against any well-formed mocked store (a nonempty response
sequence in which every response but the last carries a continuation cursor
and the last carries none), `query_table` hands the processor exactly one
page per response, in response order — each call made synchronously before
the function returns — and consumes exactly the responses up to and including
the first cursor-free one. -/
theorem c1_query_table_once_per_page {α κ : Type}
    (rs : List (DDBResponse α κ)) (h : wellFormedStore rs = true) :
    query_table rs = some (rs.map DDBResponse.Items) := by
  cases rs with
  | nil => simp [wellFormedStore] at h
  | cons r rs' =>
    cases rs' with
    | nil => simp [query_table, query_table_loop_nil]
    | cons r' rs'' =>
      simp only [wellFormedStore, Bool.and_eq_true] at h
      obtain ⟨h1, h2⟩ := h
      obtain ⟨y, hy⟩ := Option.isSome_iff_exists.mp h1
      simp only [query_table, List.map_cons, hy]
      exact congrArg _ (congrArg _ (query_table_loop_wf _ y h2))

/-- Witness for C1: a two-page store; the processor sees `[10, 20]` then
`[30]`, once each and in order. -/
theorem c1_witness :
    wellFormedStore [⟨[10, 20], some 7⟩, ⟨[30], Option.none⟩] = true ∧
    query_table [(⟨[10, 20], some 7⟩ : DDBResponse Nat Nat), ⟨[30], Option.none⟩] =
      some [[10, 20], [30]] :=
  ⟨rfl, c1_query_table_once_per_page _ rfl⟩

/-- C3: with resolvable connection identifiers, calling `execute_sql_batch`
with an empty parameter-set list returns `None` and issues no
`batch_execute_statement` call (the `.ok Option.none` outcome): a deliberate
no-op, not an error. -/
theorem c3_empty_batch_is_noop (sql : String) (rds : Option RdsClient)
    (cluster_arn secret_arn database : Option String) (env : RdsEnv)
    (t : String × String × String × RdsClient)
    (h : verify_params secret_arn cluster_arn database rds env = .ok t) :
    execute_sql_batch sql (some []) rds cluster_arn secret_arn database env =
      .ok Option.none := by
  simp [execute_sql_batch, h, Bind.bind, Except.bind]

/-- Witness for C3: a fully configured environment; the empty batch returns
`None` without a call. -/
theorem c3_witness :
    verify_params Option.none Option.none Option.none Option.none
        ⟨some "s", some "c", some "d"⟩ = .ok ("s", "c", "d", RdsClient.fresh) ∧
    execute_sql_batch "insert" (some []) Option.none Option.none Option.none
        Option.none ⟨some "s", some "c", some "d"⟩ = .ok Option.none :=
  ⟨rfl, c3_empty_batch_is_noop "insert" Option.none Option.none Option.none
    Option.none ⟨some "s", some "c", some "d"⟩ ("s", "c", "d", RdsClient.fresh) rfl⟩

/-- C4: in both executors each identifier resolves from the explicit argument
or else its environment variable (`AURORA_SECRET_ARN`, `AURORA_CLUSTER_ARN`,
`DATABASE`); when one is unresolved, a `ValueError` naming exactly the first
missing identifier in the order secret, cluster, database is raised and no
statement call is issued (an issued call exists only inside an `.ok` result);
when all resolve, verification succeeds with the resolved identifiers. -/
theorem c4_first_missing_identifier (sql : String) (ps : List SqlParam)
    (bps : List (List SqlParam)) (secret_arn cluster_arn database : Option String)
    (rds : Option RdsClient) (env : RdsEnv) :
    (pyOr secret_arn env.AURORA_SECRET_ARN = Option.none →
      execute_sql sql (some ps) rds cluster_arn secret_arn database env =
        .error (.valueError "'secret_arn' not set and not defined in AURORA_SECRET_ARN.") ∧
      execute_sql_batch sql (some bps) rds cluster_arn secret_arn database env =
        .error (.valueError "'secret_arn' not set and not defined in AURORA_SECRET_ARN.")) ∧
    (pyOr secret_arn env.AURORA_SECRET_ARN ≠ Option.none →
      pyOr cluster_arn env.AURORA_CLUSTER_ARN = Option.none →
      execute_sql sql (some ps) rds cluster_arn secret_arn database env =
        .error (.valueError "'cluster_arn' not set and not defined in AURORA_CLUSTER_ARN.") ∧
      execute_sql_batch sql (some bps) rds cluster_arn secret_arn database env =
        .error (.valueError "'cluster_arn' not set and not defined in AURORA_CLUSTER_ARN.")) ∧
    (pyOr secret_arn env.AURORA_SECRET_ARN ≠ Option.none →
      pyOr cluster_arn env.AURORA_CLUSTER_ARN ≠ Option.none →
      pyOr database env.DATABASE = Option.none →
      execute_sql sql (some ps) rds cluster_arn secret_arn database env =
        .error (.valueError "'database' not set and not defined in DATABASE.") ∧
      execute_sql_batch sql (some bps) rds cluster_arn secret_arn database env =
        .error (.valueError "'database' not set and not defined in DATABASE.")) ∧
    (∀ s c d, pyOr secret_arn env.AURORA_SECRET_ARN = some s →
      pyOr cluster_arn env.AURORA_CLUSTER_ARN = some c →
      pyOr database env.DATABASE = some d →
      verify_params secret_arn cluster_arn database rds env =
        .ok (s, c, d, rds.getD RdsClient.fresh)) := by
  refine ⟨fun hs => ?_, fun hs hc => ?_, fun hs hc hd => ?_, fun s c d hs hc hd => ?_⟩
  · constructor <;> simp [execute_sql, execute_sql_batch, verify_params, hs, Bind.bind, Except.bind]
  · obtain ⟨s, hs'⟩ := Option.ne_none_iff_exists'.mp hs
    constructor <;> simp [execute_sql, execute_sql_batch, verify_params, hs', hc, Bind.bind, Except.bind]
  · obtain ⟨s, hs'⟩ := Option.ne_none_iff_exists'.mp hs
    obtain ⟨c, hc'⟩ := Option.ne_none_iff_exists'.mp hc
    constructor <;> simp [execute_sql, execute_sql_batch, verify_params, hs', hc', hd, Bind.bind, Except.bind]
  · simp [verify_params, hs, hc, hd]

/-- Witness for C4: with no explicit arguments and only the secret missing
from the environment, both executors fail naming `secret_arn` (the first
missing identifier) and no call is issued. -/
theorem c4_witness :
    pyOr Option.none (RdsEnv.AURORA_SECRET_ARN ⟨Option.none, some "c", some "d"⟩) = Option.none ∧
    execute_sql "q" (some []) Option.none Option.none Option.none Option.none
        ⟨Option.none, some "c", some "d"⟩ =
      .error (.valueError "'secret_arn' not set and not defined in AURORA_SECRET_ARN.") :=
  ⟨rfl, ((c4_first_missing_identifier "q" [] [] Option.none Option.none Option.none
    Option.none ⟨Option.none, some "c", some "d"⟩).1 rfl).1⟩

/-- C5: for every field name and every declared field type, `make_param` with
the value `None` yields the dedicated null-marker variant as the parameter's
value, discarding the type-specific wrapping. -/
theorem c5_none_value_yields_null_marker (fieldname fieldtype : String) :
    (make_param fieldname PyVal.none fieldtype).value = WireValue.isNull := by
  simp [make_param]

/-- C10: calling `execute_sql_batch` with `params` absent or `None` raises
`TypeError` from `len(params)` in the initial logging statement — before the
identifiers are resolved (the theorem holds for every environment, even one
whose missing identifiers would otherwise raise `ValueError`) and before the
empty-parameter short-circuit; and the no-op `.ok Option.none` path is never
taken for a nonempty list either. -/
theorem c10_none_params_type_error (sql : String) (rds : Option RdsClient)
    (cluster_arn secret_arn database : Option String) (env : RdsEnv) :
    execute_sql_batch sql Option.none rds cluster_arn secret_arn database env =
      .error (.typeError "object of type 'NoneType' has no len()") ∧
    ∀ ps : List (List SqlParam), ps ≠ [] →
      execute_sql_batch sql (some ps) rds cluster_arn secret_arn database env ≠
        .ok Option.none := by
  refine ⟨rfl, fun ps hps => ?_⟩
  cases hv : verify_params secret_arn cluster_arn database rds env with
  | error e => simp [execute_sql_batch, hv, Bind.bind, Except.bind]
  | ok t => simp [execute_sql_batch, hv, hps, Bind.bind, Except.bind]

/-- Witness for C10: with every identifier configured, a `None` parameter
list still raises `TypeError`, and a singleton batch does not take the no-op
path. -/
theorem c10_witness :
    execute_sql_batch "q" Option.none Option.none Option.none Option.none
        Option.none ⟨some "s", some "c", some "d"⟩ =
      .error (.typeError "object of type 'NoneType' has no len()") ∧
    ([[]] : List (List SqlParam)) ≠ [] ∧
    execute_sql_batch "q" (some [[]]) Option.none Option.none Option.none
        Option.none ⟨some "s", some "c", some "d"⟩ ≠ .ok Option.none :=
  ⟨(c10_none_params_type_error "q" Option.none Option.none Option.none
      Option.none ⟨some "s", some "c", some "d"⟩).1,
   by decide,
   (c10_none_params_type_error "q" Option.none Option.none Option.none
      Option.none ⟨some "s", some "c", some "d"⟩).2 [[]] (by decide)⟩

lemma extract_value_ok (v : TaggedScalar) (hv : v ≠ []) :
    extract_value v = .ok (decodeScalar v) := by
  unfold extract_value decodeScalar
  split
  · rfl
  · cases v with
    | nil => exact absurd rfl hv
    | cons p rest => simp [List.headD]

lemma pyDictInsert_append (d : List (String × PyVal)) (k : String) (v : PyVal)
    (h : ∀ p ∈ d, p.1 ≠ k) : pyDictInsert d k v = d ++ [(k, v)] := by
  unfold pyDictInsert
  have : d.any (fun p => decide (p.1 = k)) = false := by
    simp only [List.any_eq_false, decide_eq_true_eq]
    exact h
  simp [this]

lemma build_row_eq (cols : List String) (row : List TaggedScalar) :
    ∀ (i : Nat) (acc : List (String × PyVal)),
    i + row.length ≤ cols.length →
    (∀ v ∈ row, v ≠ []) →
    (cols.drop i).Nodup →
    (∀ p ∈ acc, p.1 ∉ cols.drop i) →
    build_row cols i acc row =
      .ok (acc ++ ((cols.drop i).zip row).map (fun p => (p.1, decodeScalar p.2))) := by
  induction row with
  | nil => intro i acc _ _ _ _; simp [build_row]
  | cons v vs ih =>
    intro i acc hlen hv hnd hacc
    have hi : i < cols.length := by simp at hlen; omega
    have hdrop : cols.drop i = cols[i] :: cols.drop (i + 1) :=
      List.drop_eq_getElem_cons hi
    have hmemi : cols[i] ∈ cols.drop i := by rw [hdrop]; exact List.mem_cons_self _ _
    have hnd' : (cols.drop (i + 1)).Nodup ∧ cols[i] ∉ cols.drop (i + 1) := by
      rw [hdrop] at hnd
      exact ⟨(List.nodup_cons.mp hnd).2, (List.nodup_cons.mp hnd).1⟩
    have hins : pyDictInsert acc cols[i] (decodeScalar v) =
        acc ++ [(cols[i], decodeScalar v)] :=
      pyDictInsert_append _ _ _ (fun p hp => by
        intro hk; exact hacc p hp (hk ▸ hmemi))
    have hrec := ih (i + 1) (acc ++ [(cols[i], decodeScalar v)])
      (by simp at hlen ⊢; omega)
      (fun w hw => hv w (List.mem_cons_of_mem _ hw))
      hnd'.1
      (by
        intro p hp
        rcases List.mem_append.mp hp with hp' | hp'
        · intro hmem
          exact hacc p hp' (by rw [hdrop]; exact List.mem_cons_of_mem _ hmem)
        · rcases List.mem_singleton.mp hp' with rfl
          exact hnd'.2)
    calc build_row cols i acc (v :: vs)
        = build_row cols (i + 1) (pyDictInsert acc cols[i] (decodeScalar v)) vs := by
          simp only [build_row, List.getElem?_eq_getElem hi,
            extract_value_ok v (hv v (List.mem_cons_self _ _))]
      _ = .ok ((acc ++ [(cols[i], decodeScalar v)]) ++
            ((cols.drop (i + 1)).zip vs).map (fun p => (p.1, decodeScalar p.2))) := by
          rw [hins]; exact hrec
      _ = .ok (acc ++ ((cols.drop i).zip (v :: vs)).map (fun p => (p.1, decodeScalar p.2))) := by
          rw [hdrop, List.zip_cons_cons, List.map_cons, List.append_assoc]
          rfl

lemma get_data_rows_eq (cols : List String) (records : List (List TaggedScalar))
    (hnd : cols.Nodup)
    (hlen : ∀ row ∈ records, row.length ≤ cols.length)
    (hv : ∀ row ∈ records, ∀ v ∈ row, v ≠ []) :
    get_data_rows cols records =
      .ok (records.map (fun row => (cols.zip row).map (fun p => (p.1, decodeScalar p.2)))) := by
  induction records with
  | nil => rfl
  | cons row rows ih =>
    have hrow := build_row_eq cols row 0 []
      (by simpa using hlen row (List.mem_cons_self _ _))
      (hv row (List.mem_cons_self _ _))
      (by simpa using hnd)
      (by simp)
    rw [List.drop_zero] at hrow
    simp only [get_data_rows, hrow, Bind.bind, Except.bind,
      ih (fun r hr => hlen r (List.mem_cons_of_mem _ hr))
         (fun r hr => hv r (List.mem_cons_of_mem _ hr)),
      List.map_cons, List.nil_append]

/-- Counterexample to C2: a row with two tagged scalars decoded against a
single column name does not truncate — `columns[i]` raises `IndexError`, so
`get_data` fails instead of returning a result. -/
theorem c2_counterexample :
    get_data ⟨[[[("stringValue", PyVal.str "a")], [("stringValue", PyVal.str "b")]]]⟩ ["a"] =
      .error (.indexError "list index out of range") := rfl

/-- C2 (amended): positional pairing truncates only in one direction.  When
every row is at most as long as the (duplicate-free) column-name list and
each tagged scalar is a nonempty dict, `get_data` succeeds and pairs
positionally, truncating to the row's length: extra column names produce no
fields.  When a row carries more values than there are column names, the code
raises `IndexError` instead of ignoring the extra values (see the
counterexample). -/
theorem c2_truncation_short_rows (records : List (List TaggedScalar))
    (cols : List String) (hnd : cols.Nodup)
    (hlen : ∀ row ∈ records, row.length ≤ cols.length)
    (hv : ∀ row ∈ records, ∀ v ∈ row, v ≠ []) :
    get_data ⟨records⟩ cols =
      .ok (records.map (fun row => (cols.zip row).map (fun p => (p.1, decodeScalar p.2)))) :=
  get_data_rows_eq cols records hnd hlen hv

/-- Witness for C2 (amended): one row of one scalar against two column names
— the second name is dropped, the call succeeds. -/
theorem c2_witness :
    (["a", "b"] : List String).Nodup ∧
    (∀ row ∈ [[[("stringValue", PyVal.str "x")]]], row.length ≤ 2) ∧
    get_data ⟨[[[("stringValue", PyVal.str "x")]]]⟩ ["a", "b"] =
      .ok [[("a", PyVal.str "x")]] :=
  ⟨by decide, by decide,
   c2_truncation_short_rows [[[("stringValue", PyVal.str "x")]]] ["a", "b"]
     (by decide) (by decide) (by decide)⟩

/-- C6: `get_data` zips each row positionally against the column names,
decoding the null marker to `None` and any other tagged scalar to its single
wrapped value, and returns the rows in order (stated for well-formed
responses: rows as long as the duplicate-free column list, nonempty scalar
dicts).  The claim's concrete example is the witness. -/
theorem c6_get_data_decodes_rows (records : List (List TaggedScalar))
    (cols : List String) (hnd : cols.Nodup)
    (hlen : ∀ row ∈ records, row.length = cols.length)
    (hv : ∀ row ∈ records, ∀ v ∈ row, v ≠ []) :
    get_data ⟨records⟩ cols =
      .ok (records.map (fun row => (cols.zip row).map (fun p => (p.1, decodeScalar p.2)))) :=
  get_data_rows_eq cols records hnd (fun row hr => (hlen row hr).le) hv

/-- Witness for C6: `decode({records: [[{stringValue: "a"}], [{isNull: true}]]},
["col"])` yields `[{col: "a"}, {col: null}]`. -/
theorem c6_witness :
    (["col"] : List String).Nodup ∧
    get_data ⟨[[[("stringValue", PyVal.str "a")]], [[("isNull", PyVal.bool true)]]]⟩ ["col"] =
      .ok [[("col", PyVal.str "a")], [("col", PyVal.none)]] :=
  ⟨by decide,
   c6_get_data_decodes_rows [[[("stringValue", PyVal.str "a")]], [[("isNull", PyVal.bool true)]]]
     ["col"] (by decide) (by decide) (by decide)⟩

lemma any_dot_iff (l : List Char) :
    (l.any (fun c => decide (c = '.')) = true) ↔ '.' ∈ l := by
  simp [List.any_eq_true]

lemma dot_not_mem_digitChars (l : List Nat) (h : ∀ k ∈ l, k < 10) :
    '.' ∉ l.map digitChar := by
  intro hmem
  rcases List.mem_map.mp hmem with ⟨k, hk, hEq⟩
  have h10 := h k hk
  interval_cases k <;> exact absurd hEq (by decide)

lemma pyDecStr_dot_plain (d : PyDecimal) (hd : d.digits ≠ [])
    (hwf : ∀ k ∈ d.digits, k < 10)
    (h1 : d.exp ≤ 0) (h2 : (-6 : Int) < d.exp + (d.digits.length : Int)) :
    ('.' ∈ pyDecStr d ↔ d.exp < 0) := by
  have hlen1 : (1 : Int) ≤ (d.digits.length : Int) := by
    have := List.length_pos.mpr hd; exact_mod_cast this
  have hsign : '.' ∉ (if d.neg then ['-'] else ([] : List Char)) := by
    cases d.neg <;> simp
  have hdigits := dot_not_mem_digitChars d.digits hwf
  by_cases hz : d.exp = 0
  · have hgt : (-6 : Int) < (d.digits.length : Int) := by omega
    have hnle : ¬((d.digits.length : Int) ≤ 0) := by omega
    simp [pyDecStr, hz, hgt, hnle, List.length_map, List.mem_append, hsign, hdigits,
      List.mem_replicate, Int.toNat_natCast]
  · have hlt : d.exp < 0 := lt_of_le_of_ne h1 hz
    by_cases hdp : d.exp + (d.digits.length : Int) ≤ 0
    · simp [pyDecStr, h1, h2, hdp, hlt, List.mem_append]
    · have hnge : ¬((d.digits.length : Int) ≤ d.exp + (d.digits.length : Int)) := by omega
      simp [pyDecStr, h1, h2, hdp, hlt, hnge, List.length_map, List.mem_append]

/-- C7: the encoder used by `response` renders a decimal as a plain integer
exactly when its string form carries no decimal point (the code's stated
decision rule) and as a floating-point number otherwise; and for every
decimal printed in plain (non-scientific) notation, the string form carries a
decimal point exactly when the decimal carries fractional digits
(`exp < 0`).  `Decimal("10")` therefore serializes as integer `10` and
`Decimal("10.5")` as float `10.5` (see the witness). -/
theorem c7_decimal_encoder (d : PyDecimal) (hd : d.digits ≠ [])
    (hwf : ∀ k ∈ d.digits, k < 10) :
    ((pyDecStr d).any (fun c => decide (c = '.')) = false →
      DecimalEncoder.default d = .intVal (pyIntOfDec d)) ∧
    ((pyDecStr d).any (fun c => decide (c = '.')) = true →
      DecimalEncoder.default d = .floatVal (pyFloatOfDec d)) ∧
    (d.exp ≤ 0 → (-6 : Int) < d.exp + (d.digits.length : Int) →
      ((pyDecStr d).any (fun c => decide (c = '.')) = true ↔ d.exp < 0)) := by
  refine ⟨fun h => ?_, fun h => ?_, fun h1 h2 => ?_⟩
  · simp [DecimalEncoder.default, h]
  · simp [DecimalEncoder.default, h]
  · rw [any_dot_iff]
    exact pyDecStr_dot_plain d hd hwf h1 h2

/-- Witness for C7: `Decimal("10")` encodes to the integer `10`,
`Decimal("10.5")` to the float `10.5`. -/
theorem c7_witness :
    ((⟨false, [1, 0], 0⟩ : PyDecimal).digits ≠ [] ∧
      DecimalEncoder.default ⟨false, [1, 0], 0⟩ = .intVal 10) ∧
    ((⟨false, [1, 0, 5], -1⟩ : PyDecimal).digits ≠ [] ∧
      DecimalEncoder.default ⟨false, [1, 0, 5], -1⟩ = .floatVal (21 / 2)) := by
  refine ⟨⟨by decide, (c7_decimal_encoder ⟨false, [1, 0], 0⟩ (by decide) (by decide)).1 (by decide)⟩,
    ⟨by decide, ?_⟩⟩
  have hf : pyFloatOfDec ⟨false, [1, 0, 5], -1⟩ = 21 / 2 := by
    norm_num [pyFloatOfDec, decCoeff, List.foldl]
  have h := (c7_decimal_encoder ⟨false, [1, 0, 5], -1⟩ (by decide) (by decide)).2.1 (by decide)
  rw [hf] at h
  exact h

lemma jsonEscapeChar_plain (c : Char) (h : jsonPlainChar c = true) :
    jsonEscapeChar c = [c] := by
  simp only [jsonPlainChar, Bool.and_eq_true, decide_eq_true_eq,
    bne_iff_ne, ne_eq] at h
  obtain ⟨⟨⟨h32, h126⟩, hq⟩, hbs⟩ := h
  have hn8 : ¬(c.toNat = 8) := by omega
  have hn9 : ¬(c.toNat = 9) := by omega
  have hn10 : ¬(c.toNat = 10) := by omega
  have hn12 : ¬(c.toNat = 12) := by omega
  have hn13 : ¬(c.toNat = 13) := by omega
  have hrange : ¬(c.toNat < 32 ∨ 126 < c.toNat) := by omega
  simp [jsonEscapeChar, hq, hbs, hn8, hn9, hn10, hn12, hn13, hrange]

lemma flatMap_escape_plain (l : List Char) (h : ∀ c ∈ l, jsonPlainChar c = true) :
    l.flatMap jsonEscapeChar = l := by
  induction l with
  | nil => rfl
  | cons c cs ih =>
    rw [List.flatMap_cons, jsonEscapeChar_plain c (h c (List.mem_cons_self _ _)),
      ih (fun x hx => h x (List.mem_cons_of_mem _ hx))]
    rfl

/-- Counterexample to C8: for the unmatched path `"/%22"`, whose URL-decoded
form is `/"`, the serialized 400 body does NOT contain the decoded path —
JSON string escaping turns the quote into `\"`, breaking the containment the
claim asserts for every event. -/
theorem c8_counterexample :
    route_and_execute ⟨some "GET", "/%22", Option.none⟩ (fun _ _ => Option.none)
        (fun _ => .ok (PyJson.obj [])) =
      .ok (.resp (lambdaResponse (pyUnquote "/%22" ++ " is invalid") 400)) ∧
    (lambdaResponse (pyUnquote "/%22" ++ " is invalid") 400).statusCode = 400 ∧
    ¬ List.IsInfix (pyUnquote "/%22").data
        (lambdaResponse (pyUnquote "/%22" ++ " is invalid") 400).body.data :=
  ⟨rfl, rfl, by decide⟩

/-- C8 (amended): for every event whose verb and URL-decoded path match no
registered route, `route_and_execute` returns (rather than raises) the
envelope with status code 400 whose body is the JSON serialization of
"<decoded path> is invalid"; that serialized body contains the decoded path
verbatim whenever the path consists of printable ASCII characters other than
the double quote and the backslash (characters JSON escaping rewrites). -/
theorem c8_unmatched_returns_400 (event : LambdaEvent)
    (routesMatch : String → String → Option (List (String × RVal)))
    (loads : String → Except PyError PyJson)
    (h : routesMatch (pyUnquote event.path) (event.httpMethod.getD "") = Option.none) :
    route_and_execute event routesMatch loads =
      .ok (.resp (lambdaResponse (pyUnquote event.path ++ " is invalid") 400)) ∧
    (lambdaResponse (pyUnquote event.path ++ " is invalid") 400).statusCode = 400 ∧
    ((pyUnquote event.path).data.all jsonPlainChar = true →
      List.IsInfix (pyUnquote event.path).data
        (lambdaResponse (pyUnquote event.path ++ " is invalid") 400).body.data) := by
  refine ⟨?_, rfl, fun hplain => ?_⟩
  · simp [route_and_execute, h]
  · have hesc : (pyUnquote event.path).data.flatMap jsonEscapeChar =
        (pyUnquote event.path).data :=
      flatMap_escape_plain _ (by simpa [List.all_eq_true] using hplain)
    have hbody : (lambdaResponse (pyUnquote event.path ++ " is invalid") 400).body.data =
        '"' :: ((pyUnquote event.path).data ++
          ((" is invalid" : String).data.flatMap jsonEscapeChar ++ ['"'])) := by
      simp [lambdaResponse, jsonDumpsStr, String.data_append, List.flatMap_append,
        hesc, List.append_assoc]
    rw [hbody]
    exact ⟨['"'], (" is invalid" : String).data.flatMap jsonEscapeChar ++ ['"'], by simp⟩

/-- Witness for C8 (amended): the unmatched plain path `"/nope"` produces
the 400 envelope and its body contains the path. -/
theorem c8_witness :
    (pyUnquote "/nope").data.all jsonPlainChar = true ∧
    route_and_execute ⟨some "GET", "/nope", Option.none⟩ (fun _ _ => Option.none)
        (fun _ => .ok (PyJson.obj [])) =
      .ok (.resp (lambdaResponse (pyUnquote "/nope" ++ " is invalid") 400)) ∧
    List.IsInfix (pyUnquote "/nope").data
      (lambdaResponse (pyUnquote "/nope" ++ " is invalid") 400).body.data := by
  have h := c8_unmatched_returns_400 ⟨some "GET", "/nope", Option.none⟩
      (fun _ _ => Option.none) (fun _ => .ok (PyJson.obj [])) rfl
  exact ⟨by decide, h.1, h.2.2 (by decide)⟩

/-- C9: on a successful route match, the matched handler is invoked with the
parsed body and with every entry of the match dict as keyword arguments —
including the `"controller"` entry, whose value is the invoked handler
itself — so every registered handler receives a `controller` keyword argument
in addition to its named path parameters and `body`. -/
theorem c9_handler_receives_controller (event : LambdaEvent)
    (routesMatch : String → String → Option (List (String × RVal)))
    (loads : String → Except PyError PyJson)
    (m : List (String × RVal)) (h : Nat) (bodyJson : PyJson)
    (hm : routesMatch (pyUnquote event.path) (event.httpMethod.getD "") = some m)
    (hc : m.find? (fun p => decide (p.1 = "controller")) =
      some ("controller", RVal.handlerRef h))
    (hnb : m.any (fun p => decide (p.1 = "body")) = false)
    (hload : decodeBody loads (bodyOrEmpty event.body) = .ok bodyJson) :
    route_and_execute event routesMatch loads =
      .ok (.handlerCall h (("body", RVal.pyjson bodyJson) :: m)) ∧
    ("controller", RVal.handlerRef h) ∈ ("body", RVal.pyjson bodyJson) :: m ∧
    ∀ p ∈ m, p ∈ ("body", RVal.pyjson bodyJson) :: m := by
  refine ⟨?_, List.mem_cons_of_mem _ (List.mem_of_find?_eq_some hc),
    fun p hp => List.mem_cons_of_mem _ hp⟩
  simp [route_and_execute, hm, hload, hc, hnb, Bind.bind, Except.bind]

/-- Witness for C9: a matched `/contact/:company/:id` route; the handler
call carries `body`, `controller` (the handler itself), `company` and `id`. -/
theorem c9_witness :
    route_and_execute ⟨some "GET", "/contact/acme/7", Option.none⟩
        (fun _ _ => some [("controller", RVal.handlerRef 0),
          ("company", RVal.str "acme"), ("id", RVal.str "7")])
        (fun _ => .ok (PyJson.obj [])) =
      .ok (.handlerCall 0 [("body", RVal.pyjson (PyJson.obj [])),
        ("controller", RVal.handlerRef 0),
        ("company", RVal.str "acme"), ("id", RVal.str "7")]) ∧
    ("controller", RVal.handlerRef 0) ∈
      [("body", RVal.pyjson (PyJson.obj [])), ("controller", RVal.handlerRef 0),
        ("company", RVal.str "acme"), ("id", RVal.str "7")] := by
  have h := c9_handler_receives_controller ⟨some "GET", "/contact/acme/7", Option.none⟩
      (fun _ _ => some [("controller", RVal.handlerRef 0),
        ("company", RVal.str "acme"), ("id", RVal.str "7")])
      (fun _ => .ok (PyJson.obj []))
      [("controller", RVal.handlerRef 0), ("company", RVal.str "acme"),
        ("id", RVal.str "7")] 0 (PyJson.obj []) rfl rfl rfl rfl
  exact ⟨h.1, h.2.1⟩
